import Mathlib

/-!
Verification of the OpenPixelControl stream codec.

This file is a shallow embedding of the two source files of
`node-openpixelcontrol-stream-es6`:

* `src/lib/parse.js` — `OpcParseStream`, the incremental frame decoder and
  message dispatcher (`_write`, `_handleOpcMessage`,
  `_handleSetPixelColorsMessage`, `_handleSysExMessage`, constructor);
* the client file — `OpcClientStream`, the frame encoder (`createMessage`,
  the `Uint32Array` packing branch of `setPixelColors`).

Buffers are modelled as `List Nat` of byte values; multi-byte reads and
writes follow the big-endian layout of the source.  The decoder callbacks
are modelled by returning the list of frames handed to `_handleOpcMessage`
(in order) together with the handler invocations (`Event`s) produced by
the dispatcher, in order.
-/

namespace Opc

/-- Model of `OpcParseStream.DataFormat` (parse.js lines 197-200): the
string enum with values `buffer` and `uint32array`, as an inductive. -/
inductive DataFormat where
  | buffer
  | uint32array
deriving DecidableEq, Repr

/-- A handler invocation made by the dispatcher: either `setPixelColors`
(with a byte buffer or a `Uint32Array`, depending on the configured data
format) or `sysex(commandId, data)`. -/
inductive Event where
  | setPixelColorsBuffer (data : List Nat)
  | setPixelColorsInts (pixels : List Nat)
  | sysex (commandId : Nat) (data : List Nat)
deriving DecidableEq, Repr

/-- One `(channel, command, data)` triple handed to `_handleOpcMessage`
by the parse loop of `_write`. -/
structure Frame where
  channel : Nat
  command : Nat
  data : List Nat
deriving DecidableEq, Repr

/-- The persistent fields of an `OpcParseStream` instance: the residual
buffer `_pushback` (JavaScript `null` is `none`) and the configuration set
by the constructor.  Fields `channel` and `systemId` are `Int` because the
constructor applies the JavaScript `~~` coercion (ToInt32) to the options. -/
structure ParseState where
  pushback : Option (List Nat)
  dataFormat : DataFormat
  channel : Int
  systemId : Int
deriving DecidableEq, Repr

/-- JavaScript ToInt32 (the `~~v` coercion) on an integral value: wrap
into the interval from `-2 ^ 31` up to `2 ^ 31 - 1`. -/
def toInt32 (v : Int) : Int :=
  (v + 2 ^ 31) % 2 ^ 32 - 2 ^ 31

/-- Model of the `OpcParseStream` constructor (parse.js lines 38-59):
`_pushback = null`, `dataFormat = options.dataFormat || BUFFER`,
`channel = ~~options.channel || 0`, `systemId = ~~options.systemId || 0xffff`.
An absent option is `none`; `~~undefined` is `0`, so an absent `channel`
or `systemId` falls into the falsy case. -/
def mkParseState (dataFormat : Option DataFormat) (channel systemId : Option Int) :
    ParseState where
  pushback := none
  dataFormat := dataFormat.getD DataFormat.buffer
  channel := toInt32 (channel.getD 0)
  systemId :=
    if toInt32 (systemId.getD 0) = 0 then 0xffff else toInt32 (systemId.getD 0)

/-- Model of `buffer.readUInt16BE(off)`: big-endian 16-bit read. -/
def readUInt16BE (b : List Nat) (off : Nat) : Nat :=
  b.getD off 0 * 256 + b.getD (off + 1) 0

/-- The `Uint32Array` branch of `OpcClientStream.setPixelColors` (client
file lines 24-36): pack each 32-bit pixel into the 3 bytes
`(rgb >> 16) & 0xff`, `(rgb >> 8) & 0xff`, `rgb & 0xff`. -/
def pixelsToBuffer (pixels : List Nat) : List Nat :=
  (pixels.map fun rgb => [rgb / 65536 % 256, rgb / 256 % 256, rgb % 256]).flatten

/-- The `UINT32_ARRAY` conversion of `_handleSetPixelColorsMessage`
(parse.js lines 160-165): `new Uint32Array(data.length / 3)` with entry
`i` set to `(data[3i] << 16) | (data[3i+1] << 8) | data[3i+2]` (a
`Uint32Array` store wraps modulo `2 ^ 32`). -/
def bufferToPixels (data : List Nat) : List Nat :=
  (List.range (data.length / 3)).map fun i =>
    (data.getD (3 * i) 0 * 65536 + data.getD (3 * i + 1) 0 * 256 +
      data.getD (3 * i + 2) 0) % 2 ^ 32

/-- Model of `OpcClientStream.createMessage` (client file lines 74-84):
allocate `4 + data.length` bytes, write `channel` and `command` as `UInt8`
(the noAssert write keeps the low byte), `data.length` big-endian 16-bit at
offset 2 (the noAssert write keeps the two low bytes of the length), then
copy `data` from offset 4. -/
def createMessage (channel command : Nat) (data : List Nat) : List Nat :=
  [channel % 256, command % 256, data.length / 256 % 256, data.length % 256] ++ data

/-- Model of `_handleSetPixelColorsMessage` (parse.js lines 156-169). -/
def handleSetPixelColorsMessage (st : ParseState) (data : List Nat) : List Event :=
  if st.dataFormat = DataFormat.buffer then [Event.setPixelColorsBuffer data]
  else [Event.setPixelColorsInts (bufferToPixels data)]

/-- Model of `_handleSysExMessage` (parse.js lines 175-184): read the
big-endian `systemId` and `sysexCommandId`, drop silently unless
`systemId` matches the configured one, otherwise invoke `sysex` with the
rest of the payload. -/
def handleSysExMessage (st : ParseState) (data : List Nat) : List Event :=
  if (readUInt16BE data 0 : Int) ≠ st.systemId then []
  else [Event.sysex (readUInt16BE data 2) (data.drop 4)]

/-- The command dispatch of `_handleOpcMessage` after the channel filter
(parse.js lines 136-148): two successive checks of the command byte; a
SysEx payload shorter than 4 bytes is ignored without error. -/
def handleCommand (st : ParseState) (command : Nat) (data : List Nat) : List Event :=
  (if command = 0x00 then handleSetPixelColorsMessage st data else []) ++
    (if command = 0xff then
      if data.length < 4 then [] else handleSysExMessage st data
    else [])

/-- Model of `_handleOpcMessage` (parse.js lines 130-149): skip
non-broadcast messages for other channels, then dispatch on the command
byte. -/
def handleOpcMessage (st : ParseState) (f : Frame) : List Event :=
  if 0 < f.channel ∧ (f.channel : Int) ≠ st.channel then []
  else handleCommand st f.command f.data

/-- The parse loop of `_write` (parse.js lines 96-122).  Returns the value
of `_pushback` when the loop exits and the frames handed to
`_handleOpcMessage`, in order.  Mirrors the source exactly: on a short
buffer (below 4 bytes, or below `4 + length` bytes) the whole buffer is
saved; when bytes remain beyond the current frame, `_pushback` is assigned
the remainder before the loop continues. -/
def writeLoop (buffer : List Nat) (pushback : Option (List Nat)) :
    Option (List Nat) × List Frame :=
  if h0 : buffer.length = 0 then (pushback, [])
  else if buffer.length < 4 then (some buffer, [])
  else
    let channel := buffer.getD 0 0
    let command := buffer.getD 1 0
    let len := readUInt16BE buffer 2
    if buffer.length < 4 + len then (some buffer, [])
    else
      let pushback1 :=
        if 4 + len < buffer.length then some (buffer.drop (4 + len)) else pushback
      let rest := writeLoop (buffer.drop (4 + len)) pushback1
      (rest.1, ⟨channel, command, (buffer.drop 4).take len⟩ :: rest.2)
termination_by buffer.length
decreasing_by
  simp only [List.length_drop]
  omega

/-- Model of `_write` (parse.js lines 86-125).  Returns the state after
the call, the frames handed to `_handleOpcMessage` in order, and the error
passed to the callback (if any).  A non-buffer encoding errors out before
any state is touched; otherwise `_pushback` is prepended to the chunk and
cleared, and the parse loop runs. -/
def write (st : ParseState) (chunk : List Nat) (encoding : String) :
    ParseState × List Frame × Option String :=
  if encoding ≠ "buffer" then (st, [], some "expected data as Buffer")
  else
    let buffer :=
      match st.pushback with
      | some pb => pb ++ chunk
      | none => chunk
    let r := writeLoop buffer none
    ({ st with pushback := r.1 }, r.2, none)

/-- Feed a sequence of chunks (each a separate `_write` call with the
buffer encoding), collecting all dispatched frames in order. -/
def writeAll (st : ParseState) (chunks : List (List Nat)) :
    ParseState × List Frame :=
  match chunks with
  | [] => (st, [])
  | c :: cs =>
    let r := write st c ("buffer")
    let rest := writeAll r.1 cs
    (rest.1, r.2.1 ++ rest.2)

/-! Helper lemmas: the four exit/step cases of the parse loop, and
cons-shaped unfoldings of the pixel codec. -/

theorem writeLoop_nil (pb : Option (List Nat)) : writeLoop [] pb = (pb, []) := by
  rw [writeLoop]; simp

theorem writeLoop_short (b : List Nat) (pb : Option (List Nat))
    (h0 : b ≠ []) (h4 : b.length < 4) : writeLoop b pb = (some b, []) := by
  rw [writeLoop]
  have h : ¬ b.length = 0 := by simpa [List.length_eq_zero] using h0
  simp [h, h4]

theorem writeLoop_incomplete (b : List Nat) (pb : Option (List Nat))
    (h4 : 4 ≤ b.length) (h : b.length < 4 + readUInt16BE b 2) :
    writeLoop b pb = (some b, []) := by
  rw [writeLoop]
  have h0 : ¬ b.length = 0 := by omega
  have h4' : ¬ b.length < 4 := by omega
  simp [h0, h4', h]

theorem writeLoop_complete (b : List Nat) (pb : Option (List Nat))
    (h4 : 4 ≤ b.length) (hlen : 4 + readUInt16BE b 2 ≤ b.length) :
    writeLoop b pb =
      ((writeLoop (b.drop (4 + readUInt16BE b 2))
          (if 4 + readUInt16BE b 2 < b.length then some (b.drop (4 + readUInt16BE b 2))
           else pb)).1,
        ⟨b.getD 0 0, b.getD 1 0, (b.drop 4).take (readUInt16BE b 2)⟩ ::
          (writeLoop (b.drop (4 + readUInt16BE b 2))
            (if 4 + readUInt16BE b 2 < b.length then some (b.drop (4 + readUInt16BE b 2))
             else pb)).2) := by
  rw [writeLoop]
  have h0 : ¬ b.length = 0 := by omega
  have h4' : ¬ b.length < 4 := by omega
  have h : ¬ b.length < 4 + readUInt16BE b 2 := by omega
  simp [h0, h4', h]

theorem pixelsToBuffer_cons (x : Nat) (xs : List Nat) :
    pixelsToBuffer (x :: xs) =
      x / 65536 % 256 :: x / 256 % 256 :: x % 256 :: pixelsToBuffer xs := by
  simp [pixelsToBuffer]

theorem bufferToPixels_nil : bufferToPixels [] = [] := by
  simp [bufferToPixels]

theorem bufferToPixels_cons3 (b0 b1 b2 : Nat) (t : List Nat) :
    bufferToPixels (b0 :: b1 :: b2 :: t) =
      (b0 * 65536 + b1 * 256 + b2) % 2 ^ 32 :: bufferToPixels t := by
  simp only [bufferToPixels, List.length_cons]
  have h3 : (t.length + 1 + 1 + 1) / 3 = t.length / 3 + 1 := by omega
  rw [h3, List.range_succ_eq_map, List.map_cons, List.map_map]
  congr 1

/-! Claim theorems.  Each theorem below settles one claim of the
specification against the embedded code. -/

/-- Claim C1 (chunk-boundary independence of the incremental decoder) —
refuted on the code: feeding two complete frames in one chunk followed by a
third frame in a second chunk dispatches the second frame twice, while
feeding the same twelve bytes as a single chunk dispatches each frame
once.  The parse loop assigns the remainder to `_pushback` when a chunk
holds more than one frame and never clears it when the final frame
consumes the working buffer exactly, so the stale residual is re-parsed on
the next call. -/
theorem split_feed_duplicates_frame :
    (writeAll (mkParseState none none none)
        [[0, 0, 0, 1, 17, 0, 0, 0, 1, 34], [0, 0, 0, 1, 51]]).2
      = [⟨0, 0, [17]⟩, ⟨0, 0, [34]⟩, ⟨0, 0, [34]⟩, ⟨0, 0, [51]⟩] ∧
    (writeAll (mkParseState none none none)
        [[0, 0, 0, 1, 17, 0, 0, 0, 1, 34, 0, 0, 0, 1, 51]]).2
      = [⟨0, 0, [17]⟩, ⟨0, 0, [34]⟩, ⟨0, 0, [51]⟩] := by
  constructor <;> simp [writeAll, write, writeLoop, readUInt16BE, mkParseState]

/-- Claim C2 (residual-buffer invariant) — refuted on the code: after a
single `_write` call whose parse loop consumes the working buffer
completely (both contained frames are dispatched), the residual buffer is
not cleared; it still holds the full bytes of the second, already
delivered frame. -/
theorem residual_stale_after_full_drain :
    (write (mkParseState none none none) [0, 0, 0, 1, 17, 0, 0, 0, 1, 34] "buffer").2.1
      = [⟨0, 0, [17]⟩, ⟨0, 0, [34]⟩] ∧
    (write (mkParseState none none none) [0, 0, 0, 1, 17, 0, 0, 0, 1, 34] "buffer").1.pushback
      = some [0, 0, 0, 1, 34] := by
  constructor <;> simp [write, writeLoop, readUInt16BE, mkParseState]

/-- Claim C3 (encode/decode round-trip): for every uint8 channel and
command and every payload of at most 65535 bytes, feeding the bytes of
`createMessage channel command payload` to a freshly constructed decoder
dispatches exactly the triple `(channel, command, payload)`, reports no
error, and leaves the residual buffer empty. -/
theorem write_roundtrip (df : Option DataFormat) (ch sid : Option Int)
    (channel command : Nat) (payload : List Nat)
    (hc : channel < 256) (hk : command < 256) (hl : payload.length ≤ 65535) :
    write (mkParseState df ch sid) (createMessage channel command payload) "buffer"
      = (mkParseState df ch sid, [⟨channel, command, payload⟩], none) := by
  have hlen : (createMessage channel command payload).length = 4 + payload.length := by
    simp [createMessage]; omega
  have hbe : readUInt16BE (createMessage channel command payload) 2 = payload.length := by
    have h : readUInt16BE (createMessage channel command payload) 2
        = payload.length / 256 % 256 * 256 + payload.length % 256 := rfl
    rw [h]; omega
  have hloop : writeLoop (createMessage channel command payload) none
      = (none, [⟨channel, command, payload⟩]) := by
    rw [writeLoop_complete _ _ (by omega) (by omega), hbe]
    have hdropall : (createMessage channel command payload).drop (4 + payload.length) = [] :=
      List.drop_eq_nil_of_le (by omega)
    have hif : ¬ (4 + payload.length < (createMessage channel command payload).length) := by
      omega
    rw [hdropall, if_neg hif, writeLoop_nil]
    have hd0 : (createMessage channel command payload).getD 0 0 = channel % 256 := rfl
    have hd1 : (createMessage channel command payload).getD 1 0 = command % 256 := rfl
    have hdrop4 : (createMessage channel command payload).drop 4 = payload := rfl
    rw [hd0, hd1, hdrop4, Nat.mod_eq_of_lt hc, Nat.mod_eq_of_lt hk, List.take_length]
  simp [write, mkParseState, hloop]

/-- Witness for C3 at channel 0, command 0, payload `[9, 8, 7]`. -/
theorem write_roundtrip_witness :
    write (mkParseState none none none) (createMessage 0 0 [9, 8, 7]) "buffer"
      = (mkParseState none none none, [⟨0, 0, [9, 8, 7]⟩], none) :=
  write_roundtrip none none none 0 0 [9, 8, 7] (by decide) (by decide) (by decide)

/-- Claim C4 (SysEx dispatch condition): for every frame with command
`0xff` that passes the channel filter, the dispatcher drops it (no handler
invocation, no error in the model) exactly when the payload is shorter
than 4 bytes or its big-endian 16-bit field at offset 0 differs from the
configured `systemId`; otherwise the sysex handler is invoked exactly once
with the big-endian 16-bit field at offset 2 and the payload from offset 4
onward. -/
theorem sysex_dispatch (st : ParseState) (ch : Nat) (data : List Nat)
    (hch : ¬ (0 < ch ∧ (ch : Int) ≠ st.channel)) :
    handleOpcMessage st ⟨ch, 0xff, data⟩ =
      if data.length < 4 ∨ (readUInt16BE data 0 : Int) ≠ st.systemId then []
      else [Event.sysex (readUInt16BE data 2) (data.drop 4)] := by
  unfold handleOpcMessage handleCommand handleSysExMessage
  rw [if_neg hch]
  by_cases h1 : data.length < 4 <;>
    by_cases h2 : (readUInt16BE data 0 : Int) ≠ st.systemId <;>
      simp [h1, h2]

/-- Witness for C4: a broadcast SysEx frame with matching default
`systemId = 0xffff` and payload `[255, 255, 0, 7, 9]` invokes the sysex
handler once, with command id 7 and data `[9]`. -/
theorem sysex_dispatch_witness :
    handleOpcMessage (mkParseState none none none) ⟨0, 0xff, [255, 255, 0, 7, 9]⟩
      = [Event.sysex 7 [9]] := by
  rw [sysex_dispatch (mkParseState none none none) 0 [255, 255, 0, 7, 9] (by decide)]
  decide

/-- Claim C5 (channel filtering): a frame with channel 0 is always
dispatched to the command handlers regardless of the configured channel,
and a frame with a non-zero channel different from the configured channel
is dropped with no handler invocation. -/
theorem channel_filter (st : ParseState) (f : Frame) :
    (f.channel = 0 → handleOpcMessage st f = handleCommand st f.command f.data) ∧
    (f.channel ≠ 0 → (f.channel : Int) ≠ st.channel → handleOpcMessage st f = []) := by
  constructor
  · intro h0
    unfold handleOpcMessage
    rw [if_neg]
    simp [h0]
  · intro h0 hne
    unfold handleOpcMessage
    rw [if_pos ⟨by omega, hne⟩]

/-- Witness for C5: a receiver configured for channel 7 accepts a
channel-0 frame and drops a channel-5 frame. -/
theorem channel_filter_witness :
    handleOpcMessage (mkParseState none (some 7) none) ⟨0, 0, [5]⟩
      = handleCommand (mkParseState none (some 7) none) 0 [5] ∧
    handleOpcMessage (mkParseState none (some 7) none) ⟨5, 0, [5]⟩ = [] :=
  ⟨(channel_filter (mkParseState none (some 7) none) ⟨0, 0, [5]⟩).1 rfl,
    (channel_filter (mkParseState none (some 7) none) ⟨5, 0, [5]⟩).2 (by decide) (by decide)⟩

/-- Counterexample to claim C6 as stated: the 32-bit pixel `0x01000000`
(high byte set) does not survive the packed-buffer round trip, because the
packing emits only the low 24 bits of each pixel. -/
theorem pixel_roundtrip_high_byte_cex :
    bufferToPixels (pixelsToBuffer [16777216]) ≠ [16777216] := by decide

/-- Claim C6, amended: for every array of pixels below `2 ^ 24` (that is,
with zero high byte, the `0x00rrggbb` form), packing to the
3-bytes-per-pixel buffer and converting back yields exactly the original
array. -/
theorem pixel_roundtrip_low24 (a : List Nat) (h : ∀ x ∈ a, x < 2 ^ 24) :
    bufferToPixels (pixelsToBuffer a) = a := by
  induction a with
  | nil => simp [pixelsToBuffer, bufferToPixels]
  | cons x xs ih =>
    rw [pixelsToBuffer_cons, bufferToPixels_cons3]
    have hx : x < 2 ^ 24 := h x (List.mem_cons_self x xs)
    have hxs : ∀ y ∈ xs, y < 2 ^ 24 := fun y hy => h y (List.mem_cons_of_mem x hy)
    rw [ih hxs]
    congr 1
    omega

/-- Witness for the amended C6 at `[0x0000FF, 0x00FF00]`, the pixel pair
of the specification scenario. -/
theorem pixel_roundtrip_low24_witness :
    bufferToPixels (pixelsToBuffer [255, 65280]) = [255, 65280] :=
  pixel_roundtrip_low24 [255, 65280] (by decide)

/-- Claim C7 (encoder frame layout): for every uint8 channel and command
and every payload of at most 65535 bytes, `createMessage` returns exactly
`4 + payload.length` bytes, with the channel at offset 0, the command at
offset 1, the payload length as a big-endian 16-bit integer at offsets 2
and 3, and the payload bytes unchanged from offset 4. -/
theorem createMessage_layout (channel command : Nat) (payload : List Nat)
    (hc : channel < 256) (hk : command < 256) (hl : payload.length ≤ 65535) :
    (createMessage channel command payload).length = 4 + payload.length ∧
    (createMessage channel command payload).getD 0 0 = channel ∧
    (createMessage channel command payload).getD 1 0 = command ∧
    readUInt16BE (createMessage channel command payload) 2 = payload.length ∧
    (createMessage channel command payload).drop 4 = payload := by
  refine ⟨by simp [createMessage]; omega, ?_, ?_, ?_, ?_⟩
  · have h : (createMessage channel command payload).getD 0 0 = channel % 256 := rfl
    rw [h, Nat.mod_eq_of_lt hc]
  · have h : (createMessage channel command payload).getD 1 0 = command % 256 := rfl
    rw [h, Nat.mod_eq_of_lt hk]
  · have h : readUInt16BE (createMessage channel command payload) 2
        = payload.length / 256 % 256 * 256 + payload.length % 256 := rfl
    rw [h]; omega
  · rfl

/-- Witness for C7 at channel 1, command 0, payload `[10, 20, 30]`. -/
theorem createMessage_layout_witness :
    (createMessage 1 0 [10, 20, 30]).length = 4 + 3 ∧
    (createMessage 1 0 [10, 20, 30]).getD 0 0 = 1 ∧
    (createMessage 1 0 [10, 20, 30]).getD 1 0 = 0 ∧
    readUInt16BE (createMessage 1 0 [10, 20, 30]) 2 = 3 ∧
    (createMessage 1 0 [10, 20, 30]).drop 4 = [10, 20, 30] :=
  createMessage_layout 1 0 [10, 20, 30] (by decide) (by decide) (by decide)

/-- Claim C8 (transport-error atomicity): for every decoder state, a
`_write` call whose encoding is not `buffer` reports the explicit error to
the callback and leaves the decoder state (residual buffer and
configuration) exactly as it was, dispatching no frames. -/
theorem write_rejects_nonbuffer (st : ParseState) (chunk : List Nat) (encoding : String)
    (h : encoding ≠ "buffer") :
    write st chunk encoding = (st, [], some "expected data as Buffer") := by
  simp [write, h]

/-- Witness for C8 with the utf8 encoding on a fresh decoder. -/
theorem write_rejects_nonbuffer_witness :
    write (mkParseState none none none) [1, 2, 3] "utf8"
      = (mkParseState none none none, [], some "expected data as Buffer") :=
  write_rejects_nonbuffer (mkParseState none none none) [1, 2, 3] "utf8" (by decide)

/-- Claim C9 (oversized-payload truncation in the reference encoder): for
every payload longer than 65535 bytes, `createMessage` still produces a
`4 + payload.length`-byte message (it does not fail) and the 16-bit length
field holds `payload.length` modulo `2 ^ 16`. -/
theorem createMessage_oversized_wraps (channel command : Nat) (payload : List Nat)
    (h : 65535 < payload.length) :
    (createMessage channel command payload).length = 4 + payload.length ∧
    readUInt16BE (createMessage channel command payload) 2 = payload.length % 65536 := by
  refine ⟨by simp [createMessage]; omega, ?_⟩
  have he : readUInt16BE (createMessage channel command payload) 2
      = payload.length / 256 % 256 * 256 + payload.length % 256 := rfl
  rw [he]; omega

/-- Witness for C9 at a payload of 65536 zero bytes: the length field
wraps to 0. -/
theorem createMessage_oversized_wraps_witness :
    65535 < (List.replicate 65536 (0 : Nat)).length ∧
    (createMessage 0 0 (List.replicate 65536 (0 : Nat))).length = 4 + 65536 ∧
    readUInt16BE (createMessage 0 0 (List.replicate 65536 (0 : Nat))) 2 = 0 := by
  have hlen : (List.replicate 65536 (0 : Nat)).length = 65536 := List.length_replicate _ _
  have h : 65535 < (List.replicate 65536 (0 : Nat)).length := by omega
  obtain ⟨h1, h2⟩ := createMessage_oversized_wraps 0 0 (List.replicate 65536 (0 : Nat)) h
  refine ⟨h, ?_, ?_⟩
  · rw [h1, hlen]
  · rw [h2, hlen]

/-- Claim C10 (a systemId of 0 cannot be configured): constructing the
decoder with `options.systemId` equal to 0, absent, or any value whose
ToInt32 coercion is 0, sets the configured `systemId` to the default
`0xffff`; consequently a SysEx frame whose payload carries systemId 0 is
never dispatched by any constructed receiver. -/
theorem systemId_zero_unconfigurable (df : Option DataFormat) (ch sid : Option Int)
    (v : Int) (data : List Nat)
    (hv : toInt32 v = 0) (h0 : readUInt16BE data 0 = 0) :
    (mkParseState df ch (some v)).systemId = 0xffff ∧
    (mkParseState df ch none).systemId = 0xffff ∧
    handleSysExMessage (mkParseState df ch sid) data = [] := by
  have hne : (mkParseState df ch sid).systemId ≠ 0 := by
    simp only [mkParseState]
    split
    · norm_num
    · assumption
  refine ⟨?_, ?_, ?_⟩
  · simp [mkParseState, hv]
  · simp [mkParseState, toInt32]
  · unfold handleSysExMessage
    rw [h0, if_pos (by simpa using hne.symm)]

/-- Witness for C10 with `options.systemId = 0` and a SysEx payload whose
systemId field is 0. -/
theorem systemId_zero_unconfigurable_witness :
    (mkParseState none none (some 0)).systemId = 0xffff ∧
    (mkParseState none none none).systemId = 0xffff ∧
    handleSysExMessage (mkParseState none none (some 0)) [0, 0, 0, 1, 42] = [] :=
  systemId_zero_unconfigurable none none (some 0) 0 [0, 0, 0, 1, 42] (by decide) (by decide)

end Opc
